import Mathlib

/-!
Verification of the claude-mem pluggable storage layer.

This file shallowly embeds the storage backends of the repository:
the `FileStorageAdapter` (one JSON file per record plus a shared
counters/index file, `src/storage/FileStorageAdapter.ts`) and the
`PostgresStorageAdapter` (five SQL tables, `src/storage/PostgresStorageAdapter.ts`),
together with the adapter factory `createStorageAdapter` (`src/storage/index.ts`).

Modelling conventions:
- A `FileState` is the on-disk file tree: each record list stands for one
  directory keyed by id (sessions are keyed by content-session id), and
  `index` is the shared `index.json` (`none` models the adapter before
  `initialize()` ran, i.e. `this.index === null`).
- A `PGState` is the five tables plus the SERIAL sequences; `pool = false`
  models `this.pool === null` (before `initialize()` / after `close()`).
- `Date.now()` values are passed in as explicit `now : Nat` arguments.
- Fallible TypeScript methods (ones that can `throw`) return `Except String`.
  Batch stores return the final state alongside the outcome, because a thrown
  mid-batch error still leaves whatever was written on disk; the `failAt`
  argument injects a simulated I/O failure into the k-th underlying write
  (`failAt = none` is the ordinary, non-failing execution path).
- ISO-8601 string forms of timestamps (`createdAt`, `startedAt`) are derived
  from the epoch fields in the source (`new Date(epoch).toISOString()`) and
  are omitted; only the epoch fields are modelled.
-/

-- ============================================================================
-- Data model (src/storage/StorageAdapter.ts)
-- ============================================================================

inductive SessionStatus where
| active
| completed
| failed
deriving Repr, DecidableEq

inductive ObsType where
| decision
| bugfix
| feature
| refactor
| discovery
| change
deriving Repr, DecidableEq

inductive MsgType where
| observation
| summarize
deriving Repr, DecidableEq

inductive MsgStatus where
| pending
| processing
| processed
| failed
deriving Repr, DecidableEq

structure Session where
  id : Nat
  contentSessionId : String
  memorySessionId : Option String
  project : String
  userPrompt : Option String
  startedAtEpoch : Nat
  completedAtEpoch : Option Nat
  status : SessionStatus
deriving Repr, DecidableEq

structure Observation where
  id : Nat
  memorySessionId : String
  project : String
  type : ObsType
  title : Option String
  subtitle : Option String
  text : Option String
  facts : List String
  narrative : Option String
  concepts : List String
  filesRead : List String
  filesModified : List String
  promptNumber : Option Nat
  discoveryTokens : Nat
  createdAtEpoch : Nat
deriving Repr, DecidableEq

structure Summary where
  id : Nat
  memorySessionId : String
  project : String
  request : String
  investigated : String
  learned : String
  completed : String
  nextSteps : String
  filesRead : Option String
  filesEdited : Option String
  notes : Option String
  promptNumber : Option Nat
  discoveryTokens : Nat
  createdAtEpoch : Nat
deriving Repr, DecidableEq

structure PendingMessage where
  id : Nat
  sessionDbId : Nat
  contentSessionId : String
  messageType : MsgType
  toolName : Option String
  toolInput : Option String
  toolResponse : Option String
  cwd : Option String
  lastUserMessage : Option String
  lastAssistantMessage : Option String
  promptNumber : Option Nat
  status : MsgStatus
  retryCount : Nat
  createdAtEpoch : Nat
  startedProcessingAtEpoch : Option Nat
  completedAtEpoch : Option Nat
  failedAtEpoch : Option Nat
deriving Repr, DecidableEq

/-- The caller-supplied part of an observation:
`Omit<Observation, 'id' | 'memorySessionId' | 'project' | 'createdAt' | 'createdAtEpoch'>`.
The `promptNumber`/`discoveryTokens` fields of the TS `Omit` type are ignored by
every adapter (overridden by the separate parameters), so they are not carried here. -/
structure ObservationInput where
  type : ObsType
  title : Option String
  subtitle : Option String
  text : Option String
  facts : List String
  narrative : Option String
  concepts : List String
  filesRead : List String
  filesModified : List String
deriving Repr, DecidableEq

/-- The summary argument of `storeSummary` / `storeObservations`. -/
structure SummaryInput where
  request : String
  investigated : String
  learned : String
  completed : String
  next_steps : String
  notes : Option String
deriving Repr, DecidableEq

/-- The caller-supplied part of a pending message:
`Omit<PendingMessage, 'id' | 'status' | 'retryCount' | 'startedProcessingAtEpoch' | 'completedAtEpoch' | 'failedAtEpoch'>`. -/
structure PendingMessageInput where
  sessionDbId : Nat
  contentSessionId : String
  messageType : MsgType
  toolName : Option String
  toolInput : Option String
  toolResponse : Option String
  cwd : Option String
  lastUserMessage : Option String
  lastAssistantMessage : Option String
  promptNumber : Option Nat
  createdAtEpoch : Nat
deriving Repr, DecidableEq

-- ============================================================================
-- Row constructions shared by the adapters
-- ============================================================================

/-- The observation record built from a store call's arguments (the object
literal in `storeObservation` / the column list of the observations INSERT). -/
def mkObsRow (id : Nat) (memorySessionId project : String) (o : ObservationInput)
    (promptNumber : Option Nat) (discoveryTokens ts : Nat) : Observation :=
  { id := id, memorySessionId := memorySessionId, project := project,
    type := o.type, title := o.title, subtitle := o.subtitle, text := o.text,
    facts := o.facts, narrative := o.narrative, concepts := o.concepts,
    filesRead := o.filesRead, filesModified := o.filesModified,
    promptNumber := promptNumber, discoveryTokens := discoveryTokens,
    createdAtEpoch := ts }

/-- The summary record built from a store call's arguments; `filesRead` and
`filesEdited` are always stored as null. -/
def mkSummaryRow (id : Nat) (memorySessionId project : String) (sm : SummaryInput)
    (promptNumber : Option Nat) (discoveryTokens ts : Nat) : Summary :=
  { id := id, memorySessionId := memorySessionId, project := project,
    request := sm.request, investigated := sm.investigated, learned := sm.learned,
    completed := sm.completed, nextSteps := sm.next_steps, filesRead := none,
    filesEdited := none, notes := sm.notes, promptNumber := promptNumber,
    discoveryTokens := discoveryTokens, createdAtEpoch := ts }

/-- The fresh `active` session record of a create-or-get miss. -/
def mkSessionRow (id : Nat) (contentSessionId project userPrompt : String)
    (now : Nat) : Session :=
  { id := id, contentSessionId := contentSessionId, memorySessionId := none,
    project := project, userPrompt := some userPrompt, startedAtEpoch := now,
    completedAtEpoch := none, status := SessionStatus.active }

/-- The enqueued row: status `pending`, retry count 0, no processing stamps. -/
def mkPendingRow (id : Nat) (message : PendingMessageInput) : PendingMessage :=
  { id := id, sessionDbId := message.sessionDbId,
    contentSessionId := message.contentSessionId, messageType := message.messageType,
    toolName := message.toolName, toolInput := message.toolInput,
    toolResponse := message.toolResponse, cwd := message.cwd,
    lastUserMessage := message.lastUserMessage,
    lastAssistantMessage := message.lastAssistantMessage,
    promptNumber := message.promptNumber, status := MsgStatus.pending,
    retryCount := 0, createdAtEpoch := message.createdAtEpoch,
    startedProcessingAtEpoch := none, completedAtEpoch := none, failedAtEpoch := none }

-- ============================================================================
-- File adapter state (src/storage/FileStorageAdapter.ts)
-- ============================================================================

/-- `index.json`: next-id counters for each entity kind plus the project list. -/
structure FileIndex where
  nextSessionId : Nat
  nextObservationId : Nat
  nextSummaryId : Nat
  nextPromptId : Nat
  nextPendingId : Nat
  projects : List String
deriving Repr, DecidableEq

/-- The fresh index created by `initialize()` when no `index.json` exists. -/
def FileIndex.fresh : FileIndex :=
  { nextSessionId := 1, nextObservationId := 1, nextSummaryId := 1,
    nextPromptId := 1, nextPendingId := 1, projects := [] }

/-- The data directory of the File adapter. Each list is one directory of
one-record-per-file JSON documents; `index = none` models the adapter
before `initialize()` (the `this.index === null` state). -/
structure FileState where
  sessions : List Session
  observations : List Observation
  summaries : List Summary
  pending : List PendingMessage
  index : Option FileIndex
deriving Repr, DecidableEq

/-- `writeFileSync` to `sessions/{contentSessionId}.json`: overwrites the file
with that name if it exists. -/
def putSession (session : Session) (l : List Session) : List Session :=
  session :: l.filter (fun r => decide (r.contentSessionId ≠ session.contentSessionId))

/-- `writeFileSync` to `observations/{id}.json`. -/
def putObservation (obs : Observation) (l : List Observation) : List Observation :=
  obs :: l.filter (fun r => decide (r.id ≠ obs.id))

/-- `writeFileSync` to `summaries/{id}.json`. -/
def putSummary (sum : Summary) (l : List Summary) : List Summary :=
  sum :: l.filter (fun r => decide (r.id ≠ sum.id))

/-- `writeFileSync` to `pending/{id}.json`. -/
def putPending (msg : PendingMessage) (l : List PendingMessage) : List PendingMessage :=
  msg :: l.filter (fun r => decide (r.id ≠ msg.id))

/-- The error thrown by `FileStorageAdapter.getIndex()` when `this.index` is null. -/
def notInitFile : String :=
  "FileStorageAdapter not initialized. Call initialize() first."

/-- The error thrown by `PostgresStorageAdapter.getPool()` when `this.pool` is null. -/
def notInitPG : String :=
  "PostgresStorageAdapter not initialized. Call initialize() first."

-- ============================================================================
-- Queue ordering shared by all adapters
-- ============================================================================

/-- Comparison used to order pending messages by creation epoch
(the JS comparator `(a, b) => a.createdAtEpoch - b.createdAtEpoch` and the SQL
`ORDER BY created_at_epoch ASC`). -/
def epLE (a b : PendingMessage) : Prop :=
  a.createdAtEpoch ≤ b.createdAtEpoch

instance : DecidableRel epLE :=
  fun a b => Nat.decLe a.createdAtEpoch b.createdAtEpoch

instance : IsTotal PendingMessage epLE :=
  ⟨fun a b => Nat.le_total a.createdAtEpoch b.createdAtEpoch⟩

instance : IsTrans PendingMessage epLE :=
  ⟨fun _ _ _ => Nat.le_trans⟩

/-- Predicate for "pending message of this session". -/
def pendingFor (sessionDbId : Nat) (m : PendingMessage) : Bool :=
  decide (m.sessionDbId = sessionDbId ∧ m.status = MsgStatus.pending)

/-- The selection shared by every backend's claim: the `pending` rows of the
session sorted ascending by creation epoch, first one taken
(`ORDER BY created_at_epoch ASC LIMIT 1` in SQL, `sort(...)[0]` in the File adapter). -/
def oldestPending (msgs : List PendingMessage) (sessionDbId : Nat) : Option PendingMessage :=
  (List.insertionSort epLE (msgs.filter (pendingFor sessionDbId))).head?

namespace FileStorageAdapter

/-- `createSession`: create-or-get keyed by content-session id.
Reads the index first (throws when uninitialized), returns the existing
session's id if `sessions/{contentSessionId}.json` exists, otherwise writes a
fresh `active` session, tracks the project, and persists the bumped counter. -/
def createSession (s : FileState) (contentSessionId project userPrompt : String)
    (now : Nat) : Except String (Nat × FileState) :=
  match s.index with
  | none => .error notInitFile
  | some index =>
    match s.sessions.find? (fun r => decide (r.contentSessionId = contentSessionId)) with
    | some existing => .ok (existing.id, s)
    | none =>
      let id := index.nextSessionId
      let session := mkSessionRow id contentSessionId project userPrompt now
      let projects :=
        if project ≠ "" ∧ (index.projects.contains project) = false
        then index.projects ++ [project] else index.projects
      .ok (id,
        { s with
          sessions := putSession session s.sessions,
          index := some { index with nextSessionId := id + 1, projects := projects } })

/-- `getSessionByContentId`: reads `sessions/{contentSessionId}.json` directly.
Note: the source performs no initialization check here (`existsSync` then
`readFileSync`), so this succeeds even when `this.index` is null. -/
def getSessionByContentId (s : FileState) (contentSessionId : String) :
    Except String (Option Session) :=
  .ok (s.sessions.find? (fun r => decide (r.contentSessionId = contentSessionId)))

/-- `storeObservation`: assigns `index.nextObservationId`, stamps
`overrideTimestampEpoch ?? Date.now()`, writes `observations/{id}.json` and
persists the bumped counter. -/
def storeObservation (s : FileState) (memorySessionId project : String)
    (observation : ObservationInput) (promptNumber : Option Nat) (discoveryTokens : Nat)
    (overrideTimestampEpoch : Option Nat) (now : Nat) :
    Except String ((Nat × Nat) × FileState) :=
  match s.index with
  | none => .error notInitFile
  | some index =>
    let id := index.nextObservationId
    let timestampEpoch := overrideTimestampEpoch.getD now
    let obs := mkObsRow id memorySessionId project observation promptNumber
      discoveryTokens timestampEpoch
    .ok ((id, timestampEpoch),
      { s with
        observations := putObservation obs s.observations,
        index := some { index with nextObservationId := id + 1 } })

/-- `getObservationById`: reads `observations/{id}.json` directly (no
initialization check in the source). -/
def getObservationById (s : FileState) (id : Nat) : Except String (Option Observation) :=
  .ok (s.observations.find? (fun r => decide (r.id = id)))

/-- `storeSummary`: assigns `index.nextSummaryId`, stamps
`overrideTimestampEpoch ?? Date.now()`, writes `summaries/{id}.json`
(`filesRead`/`filesEdited` are always written as null). -/
def storeSummary (s : FileState) (memorySessionId project : String)
    (summary : SummaryInput) (promptNumber : Option Nat) (discoveryTokens : Nat)
    (overrideTimestampEpoch : Option Nat) (now : Nat) :
    Except String ((Nat × Nat) × FileState) :=
  match s.index with
  | none => .error notInitFile
  | some index =>
    let id := index.nextSummaryId
    let timestampEpoch := overrideTimestampEpoch.getD now
    let sum := mkSummaryRow id memorySessionId project summary promptNumber
      discoveryTokens timestampEpoch
    .ok ((id, timestampEpoch),
      { s with
        summaries := putSummary sum s.summaries,
        index := some { index with nextSummaryId := id + 1 } })

/-- `enqueuePendingMessage`: assigns `index.nextPendingId` and writes a
`pending`-status row with retry count 0. -/
def enqueuePendingMessage (s : FileState) (message : PendingMessageInput) :
    Except String (Nat × FileState) :=
  match s.index with
  | none => .error notInitFile
  | some index =>
    let id := index.nextPendingId
    let msg := mkPendingRow id message
    .ok (id,
      { s with
        pending := putPending msg s.pending,
        index := some { index with nextPendingId := id + 1 } })

/-- `getPendingMessages`: scans `pending/`, keeps `pending`-status rows of the
session, sorts ascending by creation epoch. No initialization check. -/
def getPendingMessages (s : FileState) (sessionDbId : Nat) : List PendingMessage :=
  List.insertionSort epLE (s.pending.filter (pendingFor sessionDbId))

/-- The read phase of `claimPendingMessage`: `getPendingMessages(...)[0]`.
The source performs this read and the status write below as two separate,
non-atomic filesystem steps. -/
def claimRead (s : FileState) (sessionDbId : Nat) : Option PendingMessage :=
  (getPendingMessages s sessionDbId).head?

/-- The write phase of `claimPendingMessage`: set the chosen row's status to
`processing`, stamp `startedProcessingAtEpoch = Date.now()`, rewrite its file. -/
def claimWrite (s : FileState) (msg : PendingMessage) (now : Nat) :
    PendingMessage × FileState :=
  let m := { msg with status := MsgStatus.processing, startedProcessingAtEpoch := some now }
  (m, { s with pending := putPending m s.pending })

/-- `claimPendingMessage`, executed without interleaving: read phase then write
phase back-to-back. -/
def claimPendingMessage (s : FileState) (sessionDbId now : Nat) :
    Option PendingMessage × FileState :=
  match claimRead s sessionDbId with
  | none => (none, s)
  | some msg =>
    let r := claimWrite s msg now
    (some r.1, r.2)

/-- Two concurrent `claimPendingMessage` callers interleaved at the source's
actual atomicity granularity: both read phases observe the same pre-write
state, then both write phases run. Returns the ids each caller received. -/
def interleavedClaims (s : FileState) (sessionDbId t1 t2 : Nat) :
    Option Nat × Option Nat :=
  match claimRead s sessionDbId, claimRead s sessionDbId with
  | some m1, some m2 =>
    let r1 := claimWrite s m1 t1
    let r2 := claimWrite r1.2 m2 t2
    (some r1.1.id, some r2.1.id)
  | some m1, none => (some (claimWrite s m1 t1).1.id, none)
  | none, some m2 => (none, some (claimWrite s m2 t2).1.id)
  | none, none => (none, none)

/-- `completePendingMessage`: `unlinkSync(pending/{messageId}.json)` if it
exists — the record is deleted outright. No initialization check. -/
def completePendingMessage (s : FileState) (messageId : Nat) : FileState :=
  { s with pending := s.pending.filter (fun m => decide (m.id ≠ messageId)) }

/-- `failPendingMessage`: set status `failed`, stamp `failedAtEpoch`, increment
the retry count; the row is retained. No initialization check. -/
def failPendingMessage (s : FileState) (messageId now : Nat) : FileState :=
  match s.pending.find? (fun m => decide (m.id = messageId)) with
  | none => s
  | some msg =>
    let m :=
      { msg with
        status := MsgStatus.failed, failedAtEpoch := some now,
        retryCount := msg.retryCount + 1 }
    { s with pending := putPending m s.pending }

/-- One iteration layer of the batch `storeObservations` loop: stores each
observation in order with the shared timestamp. `failAt = some k` simulates the
k-th (0-based) underlying `writeFileSync` throwing; everything already written
stays on disk because the File adapter has no rollback. -/
def storeObsLoop (s : FileState) (memorySessionId project : String)
    (obss : List ObservationInput) (promptNumber : Option Nat)
    (discoveryTokens ts : Nat) (now k : Nat) (failAt : Option Nat) :
    Except String (List Nat) × FileState :=
  match obss with
  | [] => (.ok [], s)
  | o :: rest =>
    if failAt = some k then (.error "ENOSPC: write failed", s)
    else
      match storeObservation s memorySessionId project o promptNumber discoveryTokens
          (some ts) now with
      | .error e => (.error e, s)
      | .ok (r, s1) =>
        match storeObsLoop s1 memorySessionId project rest promptNumber discoveryTokens
            ts now (k + 1) failAt with
        | (.ok ids, s2) => (.ok (r.1 :: ids), s2)
        | (.error e, s2) => (.error e, s2)

/-- `storeObservations` (batch): computes the shared timestamp
`overrideTimestampEpoch ?? Date.now()`, stores every observation then the
optional summary with it, sequentially, with no transaction and no
compensating cleanup on failure. -/
def storeObservations (s : FileState) (memorySessionId project : String)
    (obss : List ObservationInput) (summary : Option SummaryInput)
    (promptNumber : Option Nat) (discoveryTokens : Nat)
    (overrideTimestampEpoch : Option Nat) (now : Nat) (failAt : Option Nat) :
    Except String (List Nat × Option Nat × Nat) × FileState :=
  let ts := overrideTimestampEpoch.getD now
  match storeObsLoop s memorySessionId project obss promptNumber discoveryTokens
      ts now 0 failAt with
  | (.error e, s1) => (.error e, s1)
  | (.ok ids, s1) =>
    match summary with
    | none => (.ok (ids, none, ts), s1)
    | some sm =>
      if failAt = some obss.length then (.error "ENOSPC: write failed", s1)
      else
        match storeSummary s1 memorySessionId project sm promptNumber discoveryTokens
            (some ts) now with
        | .error e => (.error e, s1)
        | .ok (r, s2) => (.ok (ids, some r.1, ts), s2)

end FileStorageAdapter

-- ============================================================================
-- Postgres adapter state (src/storage/PostgresStorageAdapter.ts)
-- ============================================================================

/-- The five tables plus the SERIAL sequences of the Postgres schema.
`pool = false` models `this.pool === null` (before `initialize()` / after
`close()`); SQL `INSERT` prepends a row to the table list, and `nextval` of a
SERIAL sequence is consumed even when the insert later conflicts or the
transaction rolls back, as in PostgreSQL. -/
structure PGState where
  sdk_sessions : List Session
  observations : List Observation
  session_summaries : List Summary
  pending_messages : List PendingMessage
  sessionSeq : Nat
  observationSeq : Nat
  summarySeq : Nat
  pendingSeq : Nat
  pool : Bool
deriving Repr, DecidableEq

namespace PostgresStorageAdapter

/-- `createSession`: `INSERT ... ON CONFLICT (content_session_id) DO UPDATE SET
content_session_id = EXCLUDED.content_session_id RETURNING id` — an atomic
upsert that returns the existing row's id on conflict (the DO UPDATE is a
no-op self-assignment; the SERIAL value is consumed either way). -/
def createSession (p : PGState) (contentSessionId project userPrompt : String)
    (now : Nat) : Except String (Nat × PGState) :=
  if p.pool = false then .error notInitPG
  else
    match p.sdk_sessions.find? (fun r => decide (r.contentSessionId = contentSessionId)) with
    | some existing => .ok (existing.id, { p with sessionSeq := p.sessionSeq + 1 })
    | none =>
      let id := p.sessionSeq
      let row := mkSessionRow id contentSessionId project userPrompt now
      .ok (id,
        { p with
          sdk_sessions := row :: p.sdk_sessions,
          sessionSeq := id + 1 })

/-- `getSessionByContentId`: `SELECT * FROM sdk_sessions WHERE
content_session_id = $1` through `getPool()`. -/
def getSessionByContentId (p : PGState) (contentSessionId : String) :
    Except String (Option Session) :=
  if p.pool = false then .error notInitPG
  else .ok (p.sdk_sessions.find? (fun r => decide (r.contentSessionId = contentSessionId)))

/-- `claimPendingMessage`: the single atomic statement `UPDATE pending_messages
SET status = 'processing', started_processing_at_epoch = $1 WHERE id = (SELECT
id ... WHERE session_db_id = $2 AND status = 'pending' ORDER BY
created_at_epoch ASC LIMIT 1 FOR UPDATE SKIP LOCKED) RETURNING *`. -/
def claimPendingMessage (p : PGState) (sessionDbId now : Nat) :
    Except String (Option PendingMessage × PGState) :=
  if p.pool = false then .error notInitPG
  else
    match oldestPending p.pending_messages sessionDbId with
    | none => .ok (none, p)
    | some chosen =>
      let upd : PendingMessage → PendingMessage := fun m =>
        { m with
          status := MsgStatus.processing,
          startedProcessingAtEpoch := some now }
      .ok (some (upd chosen),
        { p with
          pending_messages := p.pending_messages.map (fun m =>
            if m.id = chosen.id then upd m else m) })

/-- `completePendingMessage`: `UPDATE pending_messages SET status =
'processed', completed_at_epoch = $1 WHERE id = $2` — the row is retained,
only its status and completion stamp change. -/
def completePendingMessage (p : PGState) (messageId now : Nat) :
    Except String PGState :=
  if p.pool = false then .error notInitPG
  else .ok
    { p with
      pending_messages := p.pending_messages.map (fun m =>
        if m.id = messageId then
          { m with status := MsgStatus.processed, completedAtEpoch := some now }
        else m) }

/-- `failPendingMessage`: `UPDATE pending_messages SET status = 'failed',
failed_at_epoch = $1, retry_count = retry_count + 1 WHERE id = $2`. -/
def failPendingMessage (p : PGState) (messageId now : Nat) :
    Except String PGState :=
  if p.pool = false then .error notInitPG
  else .ok
    { p with
      pending_messages := p.pending_messages.map (fun m =>
        if m.id = messageId then
          { m with
            status := MsgStatus.failed,
            failedAtEpoch := some now,
            retryCount := m.retryCount + 1 }
        else m) }

/-- One `INSERT INTO observations ... RETURNING id` inside the batch
transaction. -/
def insertObservation (p : PGState) (memorySessionId project : String)
    (o : ObservationInput) (promptNumber : Option Nat) (discoveryTokens ts : Nat) :
    Nat × PGState :=
  let id := p.observationSeq
  let row := mkObsRow id memorySessionId project o promptNumber discoveryTokens ts
  (id,
    { p with
      observations := row :: p.observations,
      observationSeq := id + 1 })

/-- The observation-insert loop of the batch `storeObservations`, inside the
transaction. `failAt = some k` simulates the k-th (0-based) insert failing. -/
def batchLoop (p : PGState) (memorySessionId project : String)
    (obss : List ObservationInput) (promptNumber : Option Nat)
    (discoveryTokens ts k : Nat) (failAt : Option Nat) :
    Except String (List Nat) × PGState :=
  match obss with
  | [] => (.ok [], p)
  | o :: rest =>
    if failAt = some k then (.error "connection terminated unexpectedly", p)
    else
      let r := insertObservation p memorySessionId project o promptNumber discoveryTokens ts
      match batchLoop r.2 memorySessionId project rest promptNumber discoveryTokens
          ts (k + 1) failAt with
      | (.ok ids, p2) => (.ok (r.1 :: ids), p2)
      | (.error e, p2) => (.error e, p2)

/-- `ROLLBACK`: the tables revert to the transaction-start state; SERIAL
sequences are not rolled back (PostgreSQL semantics). -/
def rollbackTables (orig cur : PGState) : PGState :=
  { cur with
    sdk_sessions := orig.sdk_sessions,
    observations := orig.observations,
    session_summaries := orig.session_summaries,
    pending_messages := orig.pending_messages }

/-- `storeObservations` (batch): `BEGIN`, insert every observation and the
optional summary with the shared timestamp `overrideTimestampEpoch ??
Date.now()`, `COMMIT`; on any failure, `ROLLBACK` and rethrow. `failAt` injects
a simulated failure into the k-th insert (k = `obss.length` means the summary
insert fails). -/
def storeObservations (p : PGState) (memorySessionId project : String)
    (obss : List ObservationInput) (summary : Option SummaryInput)
    (promptNumber : Option Nat) (discoveryTokens : Nat)
    (overrideTimestampEpoch : Option Nat) (now : Nat) (failAt : Option Nat) :
    Except String (List Nat × Option Nat × Nat) × PGState :=
  if p.pool = false then (.error notInitPG, p)
  else
    let ts := overrideTimestampEpoch.getD now
    match batchLoop p memorySessionId project obss promptNumber discoveryTokens
        ts 0 failAt with
    | (.error e, p1) => (.error e, rollbackTables p p1)
    | (.ok ids, p1) =>
      match summary with
      | none => (.ok (ids, none, ts), p1)
      | some sm =>
        if failAt = some obss.length then
          (.error "connection terminated unexpectedly", rollbackTables p p1)
        else
          let id := p1.summarySeq
          let row := mkSummaryRow id memorySessionId project sm promptNumber
            discoveryTokens ts
          (.ok (ids, some id, ts),
            { p1 with
              session_summaries := row :: p1.session_summaries,
              summarySeq := id + 1 })

end PostgresStorageAdapter

-- ============================================================================
-- Adapter factory (src/storage/index.ts, createStorageAdapter)
-- ============================================================================

/-- `StorageConfig`: adapter selector plus the backend-specific options bag. -/
structure StorageConfig where
  adapter : String
  dbPath : Option String
  connectionString : Option String
  dataDir : Option String
deriving Repr, DecidableEq

/-- The constructed-but-not-yet-initialized adapter value the factory returns.
Construction performs no I/O in the source: it only selects a class and stores
the configuration on the instance. -/
inductive AdapterChoice where
| sqliteAdapter (dbPath : Option String)
| fileAdapter (dataDir : Option String)
| postgresAdapter (connectionString : String)
deriving Repr, DecidableEq

/-- The adapter names `createStorageAdapter` has a switch case for. -/
def recognizedAdapters : List String :=
  ["sqlite", "file", "postgres", "postgresql", "mysql"]

/-- `createStorageAdapter`: pure selection and construction, no I/O. Unknown
names, missing required parameters, and the unimplemented MySQL case all throw
configuration errors with the messages of the source. -/
def createStorageAdapter (config : StorageConfig) : Except String AdapterChoice :=
  if config.adapter = "sqlite" then
    .ok (AdapterChoice.sqliteAdapter config.dbPath)
  else if config.adapter = "file" then
    .ok (AdapterChoice.fileAdapter config.dataDir)
  else if config.adapter = "postgres" ∨ config.adapter = "postgresql" then
    match config.connectionString with
    | none => .error ("PostgreSQL requires a connection string.\n" ++
        "Set CLAUDE_MEM_STORAGE_CONNECTION_STRING in ~/.claude-mem/settings.json")
    | some cs => .ok (AdapterChoice.postgresAdapter cs)
  else if config.adapter = "mysql" then
    .error ("MySQL storage adapter not yet implemented.\n" ++
      "Implement StorageAdapter interface and submit a PR!\n" ++
      "See: src/storage/StorageAdapter.ts")
  else
    .error ("Unknown storage adapter: " ++ config.adapter ++ "\n" ++
      "Available adapters: sqlite, file\n" ++
      "To add a new adapter, implement StorageAdapter interface.")

-- ============================================================================
-- Helper lemmas
-- ============================================================================

theorem pendingFor_eq_true {sid : Nat} {m : PendingMessage} :
    pendingFor sid m = true ↔ m.sessionDbId = sid ∧ m.status = MsgStatus.pending := by
  simp [pendingFor]

theorem oldestPending_spec {msgs : List PendingMessage} {sid : Nat} {m : PendingMessage}
    (h : oldestPending msgs sid = some m) :
    m ∈ msgs ∧ m.sessionDbId = sid ∧ m.status = MsgStatus.pending ∧
    ∀ x ∈ msgs, x.sessionDbId = sid → x.status = MsgStatus.pending →
      m.createdAtEpoch ≤ x.createdAtEpoch := by
  unfold oldestPending at h
  rcases hls : List.insertionSort epLE (msgs.filter (pendingFor sid)) with _ | ⟨a, t⟩
  · rw [hls] at h
    simp at h
  · rw [hls] at h
    simp at h
    have hperm := List.perm_insertionSort epLE (msgs.filter (pendingFor sid))
    rw [hls] at hperm
    have hmemf : m ∈ msgs.filter (pendingFor sid) := by
      refine hperm.mem_iff.mp ?_
      rw [← h]
      exact List.mem_cons_self a t
    have hmem := List.mem_filter.mp hmemf
    have hpf := pendingFor_eq_true.mp hmem.2
    refine ⟨hmem.1, hpf.1, hpf.2, ?_⟩
    intro x hx hx1 hx2
    have hxf : x ∈ msgs.filter (pendingFor sid) :=
      List.mem_filter.mpr ⟨hx, pendingFor_eq_true.mpr ⟨hx1, hx2⟩⟩
    have hxs : x ∈ a :: t := hperm.mem_iff.mpr hxf
    have hsorted := List.sorted_insertionSort epLE (msgs.filter (pendingFor sid))
    rw [hls] at hsorted
    rcases List.mem_cons.mp hxs with hxa | hxt
    · rw [hxa, ← h]
    · have hrel := List.rel_of_sorted_cons hsorted x hxt
      rw [← h]
      exact hrel

theorem oldestPending_none_iff {msgs : List PendingMessage} {sid : Nat} :
    oldestPending msgs sid = none ↔
      ∀ x ∈ msgs, x.sessionDbId = sid → x.status ≠ MsgStatus.pending := by
  unfold oldestPending
  rw [List.head?_eq_none_iff]
  constructor
  · intro h x hx h1 h2
    have hperm := List.perm_insertionSort epLE (msgs.filter (pendingFor sid))
    rw [h] at hperm
    have hnil : msgs.filter (pendingFor sid) = [] := (hperm.symm).eq_nil
    have := List.filter_eq_nil_iff.mp hnil x hx
    exact this (pendingFor_eq_true.mpr ⟨h1, h2⟩)
  · intro h
    have hnil : msgs.filter (pendingFor sid) = [] := by
      rw [List.filter_eq_nil_iff]
      intro x hx hpf
      have := pendingFor_eq_true.mp hpf
      exact h x hx this.1 this.2
    rw [hnil]
    rfl

theorem storeObsLoop_ok {mid proj : String} {pn : Option Nat} {dt ts now : Nat} :
    ∀ (obss : List ObservationInput) (s : FileState) (k : Nat) (ids : List Nat)
      (s' : FileState),
      FileStorageAdapter.storeObsLoop s mid proj obss pn dt ts now k none = (.ok ids, s') →
      ids.length = obss.length ∧
      s'.summaries = s.summaries ∧
      (∀ i ∈ ids, ∃ o ∈ s'.observations, o.id = i ∧ o.createdAtEpoch = ts ∧
        o.memorySessionId = mid ∧ o.project = proj) ∧
      (∀ idx, s.index = some idx →
        ∀ o ∈ s.observations, o.id < idx.nextObservationId → o ∈ s'.observations) := by
  intro obss
  induction obss with
  | nil =>
    intro s k ids s' h
    simp [FileStorageAdapter.storeObsLoop] at h
    rcases h with ⟨h1, h2⟩
    subst h1
    subst h2
    exact ⟨rfl, rfl, by simp, fun idx _ o ho _ => ho⟩
  | cons o rest ih =>
    intro s k ids s' h
    simp only [FileStorageAdapter.storeObsLoop] at h
    rcases hidx : s.index with _ | idx
    · rw [FileStorageAdapter.storeObservation, hidx] at h
      simp at h
    · rw [FileStorageAdapter.storeObservation, hidx] at h
      simp only [Option.getD_some] at h
      rcases hrec : FileStorageAdapter.storeObsLoop
          { s with
            observations := putObservation
              (mkObsRow idx.nextObservationId mid proj o pn dt ts) s.observations,
            index := some { idx with nextObservationId := idx.nextObservationId + 1 } }
          mid proj rest pn dt ts now (k + 1) none with ⟨res, s2⟩
      rw [hrec] at h
      rcases res with e | ids2
      · simp at h
      · simp at h
        rcases h with ⟨hids, hs2⟩
        subst hs2
        have hih := ih _ (k + 1) ids2 s2 hrec
        rcases hih with ⟨hlen, hsum, hrows, hpersist⟩
        have hpersist1 :
            ∀ ob ∈ putObservation (mkObsRow idx.nextObservationId mid proj o pn dt ts)
                s.observations,
              ob.id < idx.nextObservationId + 1 → ob ∈ s2.observations :=
          fun ob hob hlt => hpersist _ rfl ob hob hlt
        refine ⟨?_, ?_, ?_, ?_⟩
        · rw [← hids]
          simp [hlen]
        · exact hsum
        · intro i hi
          rw [← hids] at hi
          rcases List.mem_cons.mp hi with hhead | htail
          · subst hhead
            refine ⟨mkObsRow idx.nextObservationId mid proj o pn dt ts, ?_, rfl, rfl, rfl, rfl⟩
            refine hpersist1 _ (List.mem_cons_self _ _) ?_
            exact Nat.lt_succ_self _
          · exact hrows i htail
        · intro idx0 hidx0 ob hob hoblt
          have hidx0e : idx = idx0 := by injection hidx0
          subst hidx0e
          refine hpersist1 ob ?_ (Nat.lt_succ_of_lt hoblt)
          simp only [putObservation]
          refine List.mem_cons.mpr (Or.inr ?_)
          refine List.mem_filter.mpr ⟨hob, ?_⟩
          simp [mkObsRow]
          omega

theorem batchLoop_ok {mid proj : String} {pn : Option Nat} {dt ts : Nat}
    {failAt : Option Nat} :
    ∀ (obss : List ObservationInput) (p : PGState) (k : Nat) (ids : List Nat)
      (p' : PGState),
      PostgresStorageAdapter.batchLoop p mid proj obss pn dt ts k failAt = (.ok ids, p') →
      ids.length = obss.length ∧
      p'.session_summaries = p.session_summaries ∧
      p'.sdk_sessions = p.sdk_sessions ∧
      p'.pending_messages = p.pending_messages ∧
      (∀ o ∈ p.observations, o ∈ p'.observations) ∧
      (∀ i ∈ ids, ∃ o ∈ p'.observations, o.id = i ∧ o.createdAtEpoch = ts ∧
        o.memorySessionId = mid ∧ o.project = proj) := by
  intro obss
  induction obss with
  | nil =>
    intro p k ids p' h
    simp [PostgresStorageAdapter.batchLoop] at h
    rcases h with ⟨h1, h2⟩
    subst h1
    subst h2
    exact ⟨rfl, rfl, rfl, rfl, fun o ho => ho, by simp⟩
  | cons o rest ih =>
    intro p k ids p' h
    simp only [PostgresStorageAdapter.batchLoop] at h
    rcases hfail : decide (failAt = some k) with _ | _
    · rw [if_neg (by simpa using hfail)] at h
      simp only [PostgresStorageAdapter.insertObservation] at h
      rcases hrec : PostgresStorageAdapter.batchLoop
          { p with
            observations := mkObsRow p.observationSeq mid proj o pn dt ts :: p.observations,
            observationSeq := p.observationSeq + 1 }
          mid proj rest pn dt ts (k + 1) failAt with ⟨res, p2⟩
      rw [hrec] at h
      rcases res with e | ids2
      · simp at h
      · simp at h
        rcases h with ⟨hids, hp2⟩
        subst hp2
        have hih := ih _ (k + 1) ids2 p2 hrec
        rcases hih with ⟨hlen, hsums, hsess, hpend, hmono, hrows⟩
        refine ⟨?_, hsums, hsess, hpend, ?_, ?_⟩
        · rw [← hids]
          simp [hlen]
        · intro ob hob
          exact hmono ob (List.mem_cons_of_mem _ hob)
        · intro i hi
          rw [← hids] at hi
          rcases List.mem_cons.mp hi with hhead | htail
          · subst hhead
            refine ⟨mkObsRow p.observationSeq mid proj o pn dt ts, ?_, rfl, rfl, rfl, rfl⟩
            exact hmono _ (List.mem_cons_self _ _)
          · exact hrows i htail
    · rw [if_pos (by simpa using hfail)] at h
      simp at h

/-- `claimRead` is exactly the shared oldest-pending selection. -/
theorem claimRead_eq_oldestPending (s : FileState) (sid : Nat) :
    FileStorageAdapter.claimRead s sid = oldestPending s.pending sid := rfl

/-- Number of session records carrying a given content-session id. -/
def sessionCount (l : List Session) (cid : String) : Nat :=
  l.countP (fun r => decide (r.contentSessionId = cid))

-- ============================================================================
-- Concrete example states used by witnesses and counterexamples
-- ============================================================================

/-- A pending-queue message with the given id, session, epoch, status and
started-processing stamp; all free-text payload fields empty. -/
def mkMsg (id sid epoch : Nat) (st : MsgStatus) (sp : Option Nat) : PendingMessage :=
  { id := id, sessionDbId := sid, contentSessionId := "abc",
    messageType := MsgType.observation, toolName := none, toolInput := none,
    toolResponse := none, cwd := none, lastUserMessage := none,
    lastAssistantMessage := none, promptNumber := none, status := st,
    retryCount := 0, createdAtEpoch := epoch, startedProcessingAtEpoch := sp,
    completedAtEpoch := none, failedAtEpoch := none }

/-- A freshly initialized, empty File-adapter data directory. -/
def emptyFS : FileState :=
  { sessions := [], observations := [], summaries := [], pending := [],
    index := some FileIndex.fresh }

/-- A freshly initialized, empty Postgres database. -/
def emptyPG : PGState :=
  { sdk_sessions := [], observations := [], session_summaries := [],
    pending_messages := [], sessionSeq := 1, observationSeq := 1, summarySeq := 1,
    pendingSeq := 1, pool := true }

/-- An example observation payload (facts, concepts and file lists non-empty). -/
def exObsInput : ObservationInput :=
  { type := ObsType.discovery, title := some "Test Discovery",
    subtitle := some "Found something interesting", text := none,
    facts := ["fact1", "fact2"], narrative := some "This is what happened",
    concepts := ["testing", "storage"], filesRead := ["file1.ts"],
    filesModified := ["file2.ts"] }

/-- An example summary payload. -/
def exSummaryInput : SummaryInput :=
  { request := "Fix bugs", investigated := "Found issues", learned := "Root cause",
    completed := "Fixed", next_steps := "Test", notes := none }

-- ============================================================================
-- Claim C8
-- ============================================================================

/-- Claim C8: storing an observation with given fact strings, concept tags,
files-read and files-modified lists via the File adapter and fetching it back
by the returned id yields lists equal to those stored, same elements in the
same order. -/
theorem observation_roundtrip (s : FileState) (mid proj : String) (o : ObservationInput)
    (pn : Option Nat) (dt : Nat) (ov : Option Nat) (now id ts : Nat) (s' : FileState)
    (h : FileStorageAdapter.storeObservation s mid proj o pn dt ov now = .ok ((id, ts), s')) :
    ∃ obs, FileStorageAdapter.getObservationById s' id = .ok (some obs) ∧
      obs.facts = o.facts ∧ obs.concepts = o.concepts ∧
      obs.filesRead = o.filesRead ∧ obs.filesModified = o.filesModified := by
  rcases hidx : s.index with _ | idx
  · rw [FileStorageAdapter.storeObservation, hidx] at h
    simp at h
  · rw [FileStorageAdapter.storeObservation, hidx] at h
    simp at h
    rcases h with ⟨⟨hid, hts⟩, hs'⟩
    refine ⟨mkObsRow idx.nextObservationId mid proj o pn dt (ov.getD now), ?_, rfl, rfl, rfl, rfl⟩
    rw [← hs', FileStorageAdapter.getObservationById]
    simp only [putObservation]
    rw [List.find?_cons_of_pos]
    simp [mkObsRow, hid]

/-- The state produced by the C8 witness store. -/
def exC8After : FileState :=
  { sessions := [], summaries := [], pending := [],
    observations := [mkObsRow 1 "mem-1" "demo" exObsInput (some 1) 100 500],
    index := some { FileIndex.fresh with nextObservationId := 2 } }

/-- Witness for C8 at a concrete store. -/
theorem observation_roundtrip_witness :
    ∃ obs, FileStorageAdapter.getObservationById exC8After 1 = .ok (some obs) ∧
      obs.facts = exObsInput.facts ∧ obs.concepts = exObsInput.concepts ∧
      obs.filesRead = exObsInput.filesRead ∧ obs.filesModified = exObsInput.filesModified :=
  observation_roundtrip emptyFS "mem-1" "demo" exObsInput (some 1) 100 none 500 1 500
    exC8After (by rfl)

-- ============================================================================
-- Claim C9
-- ============================================================================

/-- Claim C9: for every adapter name outside the recognized set, the factory
fails with the configuration error that names the unknown adapter and lists
available adapter names; the factory is a pure selection function, so it
performs no I/O before failing. -/
theorem unknown_adapter_config_error (config : StorageConfig)
    (h : config.adapter ∉ recognizedAdapters) :
    createStorageAdapter config = .error
      ("Unknown storage adapter: " ++ config.adapter ++ "\n" ++
       "Available adapters: sqlite, file\n" ++
       "To add a new adapter, implement StorageAdapter interface.") := by
  simp [recognizedAdapters] at h
  rcases h with ⟨h1, h2, h3, h4, h5⟩
  rw [createStorageAdapter]
  rw [if_neg h1, if_neg h2, if_neg (by simp [h3, h4]), if_neg h5]

/-- Witness for C9: asking the factory for a "redis" adapter. -/
theorem unknown_adapter_config_error_witness :
    ("redis" ∉ recognizedAdapters) ∧
    createStorageAdapter
        { adapter := "redis", dbPath := none, connectionString := none, dataDir := none } =
      .error ("Unknown storage adapter: " ++ "redis" ++ "\n" ++
        "Available adapters: sqlite, file\n" ++
        "To add a new adapter, implement StorageAdapter interface.") :=
  ⟨by decide, unknown_adapter_config_error _ (by decide)⟩

-- ============================================================================
-- Claim C10
-- ============================================================================

/-- Claim C10: when a session has no `pending`-status message, a claim returns
none and performs no write at all — the File adapter returns the data
directory unchanged (every record of every entity kind and the index file),
and the Postgres adapter returns the database unchanged. -/
theorem claim_no_pending_frame (s : FileState) (p : PGState) (sessionDbId now : Nat)
    (hf : ∀ m ∈ s.pending, m.sessionDbId = sessionDbId → m.status ≠ MsgStatus.pending)
    (hpool : p.pool = true)
    (hg : ∀ m ∈ p.pending_messages, m.sessionDbId = sessionDbId → m.status ≠ MsgStatus.pending) :
    FileStorageAdapter.claimPendingMessage s sessionDbId now = (none, s) ∧
    PostgresStorageAdapter.claimPendingMessage p sessionDbId now = .ok (none, p) := by
  have h1 : oldestPending s.pending sessionDbId = none := oldestPending_none_iff.mpr hf
  have h2 : oldestPending p.pending_messages sessionDbId = none := oldestPending_none_iff.mpr hg
  constructor
  · rw [FileStorageAdapter.claimPendingMessage, claimRead_eq_oldestPending, h1]
  · rw [PostgresStorageAdapter.claimPendingMessage, hpool]
    simp [h2]

/-- Witness for C10: a session whose only queue entry is already `processing`. -/
theorem claim_no_pending_frame_witness :
    FileStorageAdapter.claimPendingMessage
        { emptyFS with pending := [mkMsg 1 1 10 MsgStatus.processing (some 5)] } 1 100 =
      (none, { emptyFS with pending := [mkMsg 1 1 10 MsgStatus.processing (some 5)] }) ∧
    PostgresStorageAdapter.claimPendingMessage
        { emptyPG with pending_messages := [mkMsg 1 1 10 MsgStatus.processing (some 5)] } 1 100 =
      .ok (none, { emptyPG with pending_messages := [mkMsg 1 1 10 MsgStatus.processing (some 5)] }) :=
  claim_no_pending_frame _ _ 1 100 (by decide) (by rfl) (by decide)

-- ============================================================================
-- Claim C4
-- ============================================================================

/-- The record with a given id still present after an operation on the
Postgres backend, if any. -/
def pgRowWithId (r : Except String PGState) (i : Nat) : Option PendingMessage :=
  match r with
  | .ok p' => p'.pending_messages.find? (fun m => decide (m.id = i))
  | .error _ => none

/-- Counterexample to C4 as stated: on the Postgres backend,
`completePendingMessage` does not delete the record — after completing message
1, a record of it still exists, with status `processed`. -/
theorem completePendingMessage_retains_row_counterexample :
    (pgRowWithId
        (PostgresStorageAdapter.completePendingMessage
          { emptyPG with pending_messages := [mkMsg 1 1 10 MsgStatus.processing (some 5)] } 1 500)
        1).map PendingMessage.status = some MsgStatus.processed := by decide

/-- Claim C4 as amended: the File backend's `completePendingMessage` deletes
the record outright (no record with that id remains), while the Postgres
backend retains the row, setting its status to `processed` and stamping the
completion epoch, leaving every other row untouched. -/
theorem completePendingMessage_behavior (s : FileState) (p : PGState) (messageId now : Nat)
    (hpool : p.pool = true) :
    ((FileStorageAdapter.completePendingMessage s messageId).pending.find?
        (fun m => decide (m.id = messageId)) = none) ∧
    ∃ p', PostgresStorageAdapter.completePendingMessage p messageId now = .ok p' ∧
      p'.pending_messages.length = p.pending_messages.length ∧
      (∀ m ∈ p'.pending_messages, m.id = messageId →
        m.status = MsgStatus.processed ∧ m.completedAtEpoch = some now) ∧
      (∀ m ∈ p.pending_messages, m.id = messageId →
        ({ m with status := MsgStatus.processed, completedAtEpoch := some now } : PendingMessage)
          ∈ p'.pending_messages) ∧
      (∀ m ∈ p.pending_messages, m.id ≠ messageId → m ∈ p'.pending_messages) := by
  constructor
  · rw [FileStorageAdapter.completePendingMessage]
    rw [List.find?_eq_none]
    intro a ha
    have hmem := List.mem_filter.mp ha
    simp at hmem
    simp [hmem.2]
  · rw [PostgresStorageAdapter.completePendingMessage, hpool]
    simp only [Bool.true_eq_false, if_false]
    refine ⟨_, rfl, ?_, ?_, ?_, ?_⟩
    · exact List.length_map _ _
    · intro m hm hmid
      rcases List.mem_map.mp hm with ⟨x, hx, hfx⟩
      by_cases hxid : x.id = messageId
      · rw [if_pos hxid] at hfx
        rw [← hfx]
        exact ⟨rfl, rfl⟩
      · rw [if_neg hxid] at hfx
        rw [← hfx] at hmid
        exact absurd hmid hxid
    · intro m hm hmid
      have hmap := List.mem_map_of_mem (fun m =>
        if m.id = messageId then
          ({ m with status := MsgStatus.processed, completedAtEpoch := some now } : PendingMessage)
        else m) hm
      simp only [if_pos hmid] at hmap
      exact hmap
    · intro m hm hmid
      have hmap := List.mem_map_of_mem (fun m =>
        if m.id = messageId then
          ({ m with status := MsgStatus.processed, completedAtEpoch := some now } : PendingMessage)
        else m) hm
      simp only [if_neg hmid] at hmap
      exact hmap

/-- Witness for the amended C4 at concrete states. -/
theorem completePendingMessage_behavior_witness :
    ((FileStorageAdapter.completePendingMessage
        { emptyFS with pending := [mkMsg 1 1 10 MsgStatus.processing (some 5)] } 1).pending.find?
        (fun m => decide (m.id = 1)) = none) ∧
    ∃ p', PostgresStorageAdapter.completePendingMessage
        { emptyPG with pending_messages := [mkMsg 1 1 10 MsgStatus.processing (some 5)] } 1 500 =
          .ok p' ∧
      p'.pending_messages.length =
        ({ emptyPG with pending_messages := [mkMsg 1 1 10 MsgStatus.processing (some 5)] } :
          PGState).pending_messages.length ∧
      (∀ m ∈ p'.pending_messages, m.id = 1 →
        m.status = MsgStatus.processed ∧ m.completedAtEpoch = some 500) ∧
      (∀ m ∈ ({ emptyPG with
            pending_messages := [mkMsg 1 1 10 MsgStatus.processing (some 5)] } :
            PGState).pending_messages, m.id = 1 →
        ({ m with status := MsgStatus.processed, completedAtEpoch := some 500 } : PendingMessage)
          ∈ p'.pending_messages) ∧
      (∀ m ∈ ({ emptyPG with
            pending_messages := [mkMsg 1 1 10 MsgStatus.processing (some 5)] } :
            PGState).pending_messages, m.id ≠ 1 → m ∈ p'.pending_messages) :=
  completePendingMessage_behavior _ _ 1 500 (by rfl)

-- ============================================================================
-- Claim C6
-- ============================================================================

/-- An uninitialized File adapter (`this.index === null`) pointed at a data
directory that already holds a session file from an earlier run. -/
def exC6State : FileState :=
  { sessions := [mkSessionRow 7 "abc" "demo" "hi" 1], observations := [],
    summaries := [], pending := [], index := none }

/-- Counterexample to C6 as stated: `FileStorageAdapter.getSessionByContentId`
performs no initialization check — invoked before `initialize()` (index null)
it silently succeeds and returns the session record instead of failing with a
"not initialized" error. -/
theorem uninit_getSessionByContentId_counterexample :
    FileStorageAdapter.getSessionByContentId exC6State "abc" =
      .ok (some (mkSessionRow 7 "abc" "demo" "hi" 1)) := by
  rw [FileStorageAdapter.getSessionByContentId]
  rw [show exC6State.sessions.find?
      (fun r => decide (r.contentSessionId = "abc")) =
    some (mkSessionRow 7 "abc" "demo" "hi" 1) by decide]

/-- Claim C6 as amended: operations that consult the backend handle do fail
with the clear "not initialized" error — on the File adapter these are the
operations that read the counters index (createSession, storeObservation,
storeSummary, enqueuePendingMessage), and on the Postgres adapter every
operation goes through `getPool()` and fails; but the File adapter's direct
file-path operations (such as getSessionByContentId, getObservationById and
the queue claim/complete path) perform no initialization check and can
silently succeed, as the counterexample shows. -/
theorem uninit_guarded_ops_fail (s : FileState) (p : PGState)
    (cid proj up mid : String) (o : ObservationInput) (sm : SummaryInput)
    (pmsg : PendingMessageInput) (obss : List ObservationInput)
    (osum : Option SummaryInput) (failAt : Option Nat) (sid now : Nat)
    (hs : s.index = none) (hp : p.pool = false) :
    FileStorageAdapter.createSession s cid proj up now = .error notInitFile ∧
    FileStorageAdapter.storeObservation s mid proj o none 0 none now = .error notInitFile ∧
    FileStorageAdapter.storeSummary s mid proj sm none 0 none now = .error notInitFile ∧
    FileStorageAdapter.enqueuePendingMessage s pmsg = .error notInitFile ∧
    PostgresStorageAdapter.createSession p cid proj up now = .error notInitPG ∧
    PostgresStorageAdapter.getSessionByContentId p cid = .error notInitPG ∧
    PostgresStorageAdapter.claimPendingMessage p sid now = .error notInitPG ∧
    PostgresStorageAdapter.completePendingMessage p sid now = .error notInitPG ∧
    PostgresStorageAdapter.failPendingMessage p sid now = .error notInitPG ∧
    (PostgresStorageAdapter.storeObservations p mid proj obss osum none 0 none now failAt).1 =
      .error notInitPG := by
  refine ⟨?_, ?_, ?_, ?_, ?_, ?_, ?_, ?_, ?_, ?_⟩
  · rw [FileStorageAdapter.createSession, hs]
  · rw [FileStorageAdapter.storeObservation, hs]
  · rw [FileStorageAdapter.storeSummary, hs]
  · rw [FileStorageAdapter.enqueuePendingMessage, hs]
  · rw [PostgresStorageAdapter.createSession, hp]
    simp
  · rw [PostgresStorageAdapter.getSessionByContentId, hp]
    simp
  · rw [PostgresStorageAdapter.claimPendingMessage, hp]
    simp
  · rw [PostgresStorageAdapter.completePendingMessage, hp]
    simp
  · rw [PostgresStorageAdapter.failPendingMessage, hp]
    simp
  · rw [PostgresStorageAdapter.storeObservations, hp]
    simp

/-- A closed Postgres state after `close()` (`this.pool = null`). -/
def exC6PG : PGState := { emptyPG with pool := false }

/-- Witness for the amended C6 at concrete uninitialized states. -/
theorem uninit_guarded_ops_fail_witness :
    FileStorageAdapter.createSession exC6State "abc-1" "demo" "hello" 5 =
        .error notInitFile ∧
    FileStorageAdapter.storeObservation exC6State "mem-1" "demo" exObsInput none 0 none 5 =
        .error notInitFile ∧
    FileStorageAdapter.storeSummary exC6State "mem-1" "demo" exSummaryInput none 0 none 5 =
        .error notInitFile ∧
    FileStorageAdapter.enqueuePendingMessage exC6State
        { sessionDbId := 1, contentSessionId := "abc", messageType := MsgType.observation,
          toolName := none, toolInput := none, toolResponse := none, cwd := none,
          lastUserMessage := none, lastAssistantMessage := none, promptNumber := none,
          createdAtEpoch := 5 } = .error notInitFile ∧
    PostgresStorageAdapter.createSession exC6PG "abc-1" "demo" "hello" 5 = .error notInitPG ∧
    PostgresStorageAdapter.getSessionByContentId exC6PG "abc-1" = .error notInitPG ∧
    PostgresStorageAdapter.claimPendingMessage exC6PG 1 5 = .error notInitPG ∧
    PostgresStorageAdapter.completePendingMessage exC6PG 1 5 = .error notInitPG ∧
    PostgresStorageAdapter.failPendingMessage exC6PG 1 5 = .error notInitPG ∧
    (PostgresStorageAdapter.storeObservations exC6PG "mem-1" "demo" [exObsInput]
        (some exSummaryInput) none 0 none 5 none).1 = .error notInitPG :=
  uninit_guarded_ops_fail exC6State exC6PG "abc-1" "demo" "hello" "mem-1" exObsInput
    exSummaryInput
    { sessionDbId := 1, contentSessionId := "abc", messageType := MsgType.observation,
      toolName := none, toolInput := none, toolResponse := none, cwd := none,
      lastUserMessage := none, lastAssistantMessage := none, promptNumber := none,
      createdAtEpoch := 5 }
    [exObsInput] (some exSummaryInput) none 1 5 (by rfl) (by rfl)

-- ============================================================================
-- Claim C2
-- ============================================================================

theorem sessionCount_putSession (row : Session) (l : List Session) :
    sessionCount (putSession row l) row.contentSessionId = 1 := by
  simp only [sessionCount, putSession]
  rw [List.countP_cons]
  rw [List.countP_eq_zero.mpr]
  · simp
  · intro a ha
    have hmem := List.mem_filter.mp ha
    simp at hmem
    simp [hmem.2]

theorem sessionCount_cons_fresh (row : Session) (l : List Session)
    (h : l.find? (fun r => decide (r.contentSessionId = row.contentSessionId)) = none) :
    sessionCount (row :: l) row.contentSessionId = 1 := by
  simp only [sessionCount]
  rw [List.countP_cons]
  rw [List.countP_eq_zero.mpr]
  · simp
  · intro a ha
    have := List.find?_eq_none.mp h a ha
    simpa using this

theorem sessionCount_eq_one_of_hit (l : List Session) (cid : String) (existing : Session)
    (hle : sessionCount l cid ≤ 1)
    (h : l.find? (fun r => decide (r.contentSessionId = cid)) = some existing) :
    sessionCount l cid = 1 := by
  have h2 := List.find?_some h
  exact Nat.le_antisymm hle (List.countP_pos_iff.mpr ⟨existing, List.mem_of_find?_eq_some h, h2⟩)

/-- Claim C2: calling create-or-get twice with identical arguments returns the
same numeric session id both times, and exactly one session record with that
content-session id exists afterward. Holds for the File adapter (existence
check on `sessions/{cid}.json`) and the Postgres adapter (`INSERT ... ON
CONFLICT ... RETURNING id` upsert). The well-formedness hypotheses say the
starting store holds at most one record per content-session id, which both
backends enforce (one file per content id / UNIQUE constraint). -/
theorem createSession_idempotent (s : FileState) (p : PGState)
    (cid proj up : String) (now1 now2 : Nat)
    (hs : sessionCount s.sessions cid ≤ 1)
    (hp : sessionCount p.sdk_sessions cid ≤ 1) :
    (∀ id1 s1, FileStorageAdapter.createSession s cid proj up now1 = .ok (id1, s1) →
      ∃ id2 s2, FileStorageAdapter.createSession s1 cid proj up now2 = .ok (id2, s2) ∧
        id2 = id1 ∧ s2 = s1 ∧ sessionCount s1.sessions cid = 1) ∧
    (p.pool = true → ∀ id1 p1, PostgresStorageAdapter.createSession p cid proj up now1 =
        .ok (id1, p1) →
      ∃ id2 p2, PostgresStorageAdapter.createSession p1 cid proj up now2 = .ok (id2, p2) ∧
        id2 = id1 ∧ p2.sdk_sessions = p1.sdk_sessions ∧
        sessionCount p1.sdk_sessions cid = 1) := by
  constructor
  · intro id1 s1 h1
    rcases hidx : s.index with _ | idx
    · rw [FileStorageAdapter.createSession, hidx] at h1
      simp at h1
    · rw [FileStorageAdapter.createSession, hidx] at h1
      rcases hfind : s.sessions.find? (fun r => decide (r.contentSessionId = cid)) with _ | existing
      · simp only [hfind] at h1
        simp at h1
        rcases h1 with ⟨hid1, hs1⟩
        have hidx1 : ∃ idx1, s1.index = some idx1 := by
          rw [← hs1]
          exact ⟨_, rfl⟩
        rcases hidx1 with ⟨idx1, hidx1⟩
        have hfind1 : s1.sessions.find? (fun r => decide (r.contentSessionId = cid)) =
            some (mkSessionRow idx.nextSessionId cid proj up now1) := by
          rw [← hs1]
          simp only [putSession]
          rw [List.find?_cons_of_pos]
          simp [mkSessionRow]
        refine ⟨id1, s1, ?_, rfl, rfl, ?_⟩
        · rw [FileStorageAdapter.createSession]
          rw [hidx1]
          simp only [hfind1]
          simp [mkSessionRow, hid1]
        · have hcount := sessionCount_putSession (mkSessionRow idx.nextSessionId cid proj up now1)
            s.sessions
          rw [← hs1]
          simpa [mkSessionRow] using hcount
      · simp only [hfind] at h1
        simp at h1
        rcases h1 with ⟨hid1, hs1⟩
        refine ⟨existing.id, s, ?_, hid1, hs1, ?_⟩
        · rw [← hs1, FileStorageAdapter.createSession, hidx]
          simp only [hfind]
        · rw [← hs1]
          exact sessionCount_eq_one_of_hit s.sessions cid existing hs hfind
  · intro hpool id1 p1 h1
    rw [PostgresStorageAdapter.createSession, hpool] at h1
    simp only [Bool.true_eq_false, if_false] at h1
    rcases hfind : p.sdk_sessions.find? (fun r => decide (r.contentSessionId = cid)) with _ | existing
    · simp only [hfind] at h1
      simp at h1
      rcases h1 with ⟨hid1, hp1⟩
      have hpool1 : p1.pool = true := by rw [← hp1]
      have hfind1 : p1.sdk_sessions.find? (fun r => decide (r.contentSessionId = cid)) =
          some (mkSessionRow p.sessionSeq cid proj up now1) := by
        rw [← hp1]
        simp only []
        rw [List.find?_cons_of_pos]
        simp [mkSessionRow]
      refine ⟨id1, { p1 with sessionSeq := p1.sessionSeq + 1 }, ?_, rfl, rfl, ?_⟩
      · rw [PostgresStorageAdapter.createSession, hpool1]
        simp only [Bool.true_eq_false, if_false]
        simp only [hfind1]
        simp [mkSessionRow, hid1]
      · have hcount := sessionCount_cons_fresh (mkSessionRow p.sessionSeq cid proj up now1)
          p.sdk_sessions (by simpa [mkSessionRow] using hfind)
        rw [← hp1]
        simpa [mkSessionRow] using hcount
    · simp only [hfind] at h1
      simp at h1
      rcases h1 with ⟨hid1, hp1⟩
      have hpool1 : p1.pool = true := by rw [← hp1]
      have hfind1 : p1.sdk_sessions.find? (fun r => decide (r.contentSessionId = cid)) =
          some existing := by
        rw [← hp1]
        exact hfind
      refine ⟨existing.id, { p1 with sessionSeq := p1.sessionSeq + 1 }, ?_, hid1, rfl, ?_⟩
      · rw [PostgresStorageAdapter.createSession, hpool1]
        simp only [Bool.true_eq_false, if_false]
        simp only [hfind1]
      · rw [← hp1]
        exact sessionCount_eq_one_of_hit p.sdk_sessions cid existing hp hfind

/-- State after the first create-or-get on an empty File data directory. -/
def exC2FS1 : FileState :=
  { sessions := [mkSessionRow 1 "abc-1" "demo" "hello" 5], observations := [],
    summaries := [], pending := [],
    index := some { FileIndex.fresh with nextSessionId := 2, projects := ["demo"] } }

/-- State after the first create-or-get on an empty Postgres database. -/
def exC2PG1 : PGState :=
  { emptyPG with sdk_sessions := [mkSessionRow 1 "abc-1" "demo" "hello" 5], sessionSeq := 2 }

/-- Witness for C2 at the spec's concrete scenario (content-id "abc-1",
project "demo", prompt "hello"): the second call returns id 1 again. -/
theorem createSession_idempotent_witness :
    (∃ id2 s2, FileStorageAdapter.createSession exC2FS1 "abc-1" "demo" "hello" 6 =
        .ok (id2, s2) ∧
      id2 = 1 ∧ s2 = exC2FS1 ∧ sessionCount exC2FS1.sessions "abc-1" = 1) ∧
    (∃ id2 p2, PostgresStorageAdapter.createSession exC2PG1 "abc-1" "demo" "hello" 6 =
        .ok (id2, p2) ∧
      id2 = 1 ∧ p2.sdk_sessions = exC2PG1.sdk_sessions ∧
      sessionCount exC2PG1.sdk_sessions "abc-1" = 1) :=
  ⟨(createSession_idempotent emptyFS emptyPG "abc-1" "demo" "hello" 5 6 (by decide)
      (by decide)).1 1 exC2FS1 (by rfl),
   (createSession_idempotent emptyFS emptyPG "abc-1" "demo" "hello" 5 6 (by decide)
      (by decide)).2 (by rfl) 1 exC2PG1 (by rfl)⟩

-- ============================================================================
-- Claim C3
-- ============================================================================

/-- Claim C3: a claim returns the oldest-by-creation-epoch `pending` message of
the session, transitioned to `processing` with its started-processing epoch
stamped (File adapter: rewrites that record's file; Postgres adapter: the
atomic UPDATE-RETURNING) — or returns none exactly when the session has no
pending message. -/
theorem claimPendingMessage_oldest (s : FileState) (p : PGState) (sessionDbId now : Nat) :
    (∀ m s1, FileStorageAdapter.claimPendingMessage s sessionDbId now = (some m, s1) →
      ∃ m0, m0 ∈ s.pending ∧ m0.sessionDbId = sessionDbId ∧ m0.status = MsgStatus.pending ∧
        m = { m0 with status := MsgStatus.processing, startedProcessingAtEpoch := some now } ∧
        s1 = { s with pending := putPending m s.pending } ∧
        (∀ x ∈ s.pending, x.sessionDbId = sessionDbId → x.status = MsgStatus.pending →
          m0.createdAtEpoch ≤ x.createdAtEpoch)) ∧
    (FileStorageAdapter.claimPendingMessage s sessionDbId now = (none, s) ↔
      ∀ x ∈ s.pending, x.sessionDbId = sessionDbId → x.status ≠ MsgStatus.pending) ∧
    (p.pool = true → ∀ m p1,
      PostgresStorageAdapter.claimPendingMessage p sessionDbId now = .ok (some m, p1) →
      ∃ m0, m0 ∈ p.pending_messages ∧ m0.sessionDbId = sessionDbId ∧
        m0.status = MsgStatus.pending ∧
        m = { m0 with status := MsgStatus.processing, startedProcessingAtEpoch := some now } ∧
        (∀ x ∈ p.pending_messages, x.sessionDbId = sessionDbId →
          x.status = MsgStatus.pending → m0.createdAtEpoch ≤ x.createdAtEpoch)) := by
  refine ⟨?_, ?_, ?_⟩
  · intro m s1 h
    rw [FileStorageAdapter.claimPendingMessage] at h
    rcases hop : FileStorageAdapter.claimRead s sessionDbId with _ | chosen
    · rw [hop] at h
      simp at h
    · rw [hop] at h
      simp [FileStorageAdapter.claimWrite] at h
      rcases h with ⟨hm, hs1⟩
      have hopP : oldestPending s.pending sessionDbId = some chosen := by
        rw [← claimRead_eq_oldestPending]
        exact hop
      rcases oldestPending_spec hopP with ⟨hmem, hsid, hstat, hmin⟩
      exact ⟨chosen, hmem, hsid, hstat, hm.symm, by rw [← hs1, ← hm], hmin⟩
  · constructor
    · intro h x hx hxs hxp
      have hop : FileStorageAdapter.claimRead s sessionDbId ≠ none := by
        rw [claimRead_eq_oldestPending]
        intro hnone
        exact (oldestPending_none_iff.mp hnone) x hx hxs hxp
      rcases hcr : FileStorageAdapter.claimRead s sessionDbId with _ | chosen
      · exact hop hcr
      · rw [FileStorageAdapter.claimPendingMessage, hcr] at h
        simp at h
    · intro h
      have hop : oldestPending s.pending sessionDbId = none := oldestPending_none_iff.mpr h
      rw [FileStorageAdapter.claimPendingMessage, claimRead_eq_oldestPending, hop]
  · intro hpool m p1 h
    rw [PostgresStorageAdapter.claimPendingMessage, hpool] at h
    simp only [Bool.true_eq_false, if_false] at h
    rcases hop : oldestPending p.pending_messages sessionDbId with _ | chosen
    · rw [hop] at h
      simp at h
    · rw [hop] at h
      simp at h
      rcases h with ⟨hm, hp1⟩
      rcases oldestPending_spec hop with ⟨hmem, hsid, hstat, hmin⟩
      exact ⟨chosen, hmem, hsid, hstat, hm.symm, hmin⟩

/-- A session-1 queue holding two pending messages; the one with id 2 is older
(epoch 10 versus 20). -/
def exC3FS : FileState :=
  { emptyFS with
    pending := [mkMsg 1 1 20 MsgStatus.pending none, mkMsg 2 1 10 MsgStatus.pending none] }

/-- File data directory after claiming from `exC3FS`: the older message (id 2)
is now `processing`. -/
def exC3FS1 : FileState :=
  { emptyFS with
    pending := [mkMsg 2 1 10 MsgStatus.processing (some 100),
                mkMsg 1 1 20 MsgStatus.pending none] }

/-- Witness for C3: claiming from the concrete two-message queue returns the
older message, stamped `processing`. -/
theorem claimPendingMessage_oldest_witness :
    ∃ m0, m0 ∈ exC3FS.pending ∧ m0.sessionDbId = 1 ∧ m0.status = MsgStatus.pending ∧
      mkMsg 2 1 10 MsgStatus.processing (some 100) =
        { m0 with status := MsgStatus.processing, startedProcessingAtEpoch := some 100 } ∧
      exC3FS1 = { exC3FS with
        pending := putPending (mkMsg 2 1 10 MsgStatus.processing (some 100)) exC3FS.pending } ∧
      (∀ x ∈ exC3FS.pending, x.sessionDbId = 1 → x.status = MsgStatus.pending →
        m0.createdAtEpoch ≤ x.createdAtEpoch) :=
  (claimPendingMessage_oldest exC3FS emptyPG 1 100).1
    (mkMsg 2 1 10 MsgStatus.processing (some 100)) exC3FS1 (by rfl)

-- ============================================================================
-- Claim C5
-- ============================================================================

/-- A session-1 queue holding a single pending message (id 1). -/
def exC5FS : FileState :=
  { emptyFS with pending := [mkMsg 1 1 10 MsgStatus.pending none] }

/-- Counterexample to C5 as stated: the File backend's claim is a non-atomic
read-then-write, so two claimants whose read phases interleave before either
write both receive the same row (id 1) — a double claim. -/
theorem fileClaim_double_claim_counterexample :
    FileStorageAdapter.interleavedClaims exC5FS 1 100 101 = (some 1, some 1) := by decide

/-- Claim C5 as amended: the Shared-SQL backend's claim is one atomic
update-and-return statement, so claims serialize and two successive successful
claims for the same session always return distinct rows — no queued item is
ever handed to two callers. The File backend gives no such guarantee (see the
interleaving counterexample), as §5 of the spec itself documents. -/
theorem pgClaim_exactly_once (p : PGState) (sessionDbId now1 now2 : Nat)
    (m1 m2 : PendingMessage) (p1 p2 : PGState)
    (h1 : PostgresStorageAdapter.claimPendingMessage p sessionDbId now1 = .ok (some m1, p1))
    (h2 : PostgresStorageAdapter.claimPendingMessage p1 sessionDbId now2 = .ok (some m2, p2)) :
    m1.id ≠ m2.id := by
  rcases hpool : p.pool with _ | _
  · rw [PostgresStorageAdapter.claimPendingMessage, hpool] at h1
    simp at h1
  · rw [PostgresStorageAdapter.claimPendingMessage, hpool] at h1
    simp only [Bool.true_eq_false, if_false] at h1
    rcases hop1 : oldestPending p.pending_messages sessionDbId with _ | chosen1
    · rw [hop1] at h1
      simp at h1
    · rw [hop1] at h1
      simp at h1
      rcases h1 with ⟨hm1, hp1⟩
      have hpool1 : p1.pool = true := by
        rw [← hp1]
      have hpend1 : p1.pending_messages = p.pending_messages.map (fun m => if m.id = chosen1.id then ({ m with status := MsgStatus.processing, startedProcessingAtEpoch := some now1 } : PendingMessage) else m) := by
        rw [← hp1]
      rw [PostgresStorageAdapter.claimPendingMessage, hpool1] at h2
      simp only [Bool.true_eq_false, if_false] at h2
      rcases hop2 : oldestPending p1.pending_messages sessionDbId with _ | chosen2
      · rw [hop2] at h2
        simp at h2
      · rw [hop2] at h2
        simp at h2
        rcases h2 with ⟨hm2, _⟩
        rcases oldestPending_spec hop2 with ⟨hmem2, _, hstat2, _⟩
        intro hid
        have hid1 : m1.id = chosen1.id := by rw [← hm1]
        have hid2 : m2.id = chosen2.id := by rw [← hm2]
        rw [hpend1] at hmem2
        rcases List.mem_map.mp hmem2 with ⟨x, hx, hfx⟩
        by_cases hxid : x.id = chosen1.id
        · rw [if_pos hxid] at hfx
          rw [← hfx] at hstat2
          simp at hstat2
        · rw [if_neg hxid] at hfx
          rw [← hfx] at hid2
          rw [hid1, hid2] at hid
          exact hxid hid.symm

/-- Two pending messages for session 1 on the Postgres backend. -/
def exC5PG : PGState :=
  { emptyPG with
    pending_messages := [mkMsg 1 1 10 MsgStatus.pending none,
                         mkMsg 2 1 20 MsgStatus.pending none] }

/-- `exC5PG` after the first claim (row 1 now processing). -/
def exC5PG1 : PGState :=
  { emptyPG with
    pending_messages := [mkMsg 1 1 10 MsgStatus.processing (some 100),
                         mkMsg 2 1 20 MsgStatus.pending none] }

/-- `exC5PG1` after the second claim (row 2 now processing). -/
def exC5PG2 : PGState :=
  { emptyPG with
    pending_messages := [mkMsg 1 1 10 MsgStatus.processing (some 100),
                         mkMsg 2 1 20 MsgStatus.processing (some 101)] }

/-- Witness for the amended C5: two successive Postgres claims on a
two-message queue return rows 1 and 2, never the same row. -/
theorem pgClaim_exactly_once_witness :
    (mkMsg 1 1 10 MsgStatus.processing (some 100)).id ≠
      (mkMsg 2 1 20 MsgStatus.processing (some 101)).id :=
  pgClaim_exactly_once exC5PG 1 100 101
    (mkMsg 1 1 10 MsgStatus.processing (some 100))
    (mkMsg 2 1 20 MsgStatus.processing (some 101))
    exC5PG1 exC5PG2 (by rfl) (by rfl)

-- ============================================================================
-- Batch store characterizations (shared by C1 and C7)
-- ============================================================================

theorem pgStoreObservations_error_spec (p : PGState) (mid proj : String)
    (obss : List ObservationInput) (summary : Option SummaryInput) (pn : Option Nat)
    (dt : Nat) (ov : Option Nat) (now : Nat) (failAt : Option Nat)
    (e : String) (p1 : PGState)
    (hpool : p.pool = true)
    (h : PostgresStorageAdapter.storeObservations p mid proj obss summary pn dt ov now failAt
        = (.error e, p1)) :
    p1.observations = p.observations ∧ p1.session_summaries = p.session_summaries ∧
    p1.sdk_sessions = p.sdk_sessions ∧ p1.pending_messages = p.pending_messages := by
  rw [PostgresStorageAdapter.storeObservations, hpool] at h
  simp only [Bool.true_eq_false, if_false] at h
  rcases hbl : PostgresStorageAdapter.batchLoop p mid proj obss pn dt (ov.getD now) 0 failAt
    with ⟨res, pe⟩
  rw [hbl] at h
  rcases res with e0 | ids0
  · simp at h
    rcases h with ⟨_, hp1⟩
    rw [← hp1]
    exact ⟨rfl, rfl, rfl, rfl⟩
  · rcases summary with _ | sm
    · simp at h
    · by_cases hfs : failAt = some obss.length
      · rw [hfs] at h
        simp at h
        rcases h with ⟨_, hp1⟩
        rw [← hp1]
        exact ⟨rfl, rfl, rfl, rfl⟩
      · simp [hfs] at h

theorem pgStoreObservations_ok_spec (p : PGState) (mid proj : String)
    (obss : List ObservationInput) (summary : Option SummaryInput) (pn : Option Nat)
    (dt : Nat) (ov : Option Nat) (now : Nat) (failAt : Option Nat)
    (ids : List Nat) (sumId : Option Nat) (ts : Nat) (p1 : PGState)
    (h : PostgresStorageAdapter.storeObservations p mid proj obss summary pn dt ov now failAt
        = (.ok (ids, sumId, ts), p1)) :
    ts = ov.getD now ∧ ids.length = obss.length ∧
    (∀ i ∈ ids, ∃ o ∈ p1.observations, o.id = i ∧ o.createdAtEpoch = ts ∧
      o.memorySessionId = mid ∧ o.project = proj) ∧
    (summary = none → sumId = none ∧ p1.session_summaries = p.session_summaries) ∧
    (∀ sm, summary = some sm → ∃ j, sumId = some j ∧
      ∃ r ∈ p1.session_summaries, r.id = j ∧ r.createdAtEpoch = ts ∧
        r.memorySessionId = mid) := by
  rcases hpool : p.pool with _ | _
  · rw [PostgresStorageAdapter.storeObservations, hpool] at h
    simp at h
  · rw [PostgresStorageAdapter.storeObservations, hpool] at h
    simp only [Bool.true_eq_false, if_false] at h
    rcases hbl : PostgresStorageAdapter.batchLoop p mid proj obss pn dt (ov.getD now) 0 failAt
      with ⟨res, pe⟩
    rw [hbl] at h
    rcases res with e0 | ids0
    · simp at h
    · obtain ⟨hlen, hsums, _, _, hmono, hrows⟩ := batchLoop_ok obss p 0 ids0 pe hbl
      rcases summary with _ | sm
      · simp at h
        rcases h with ⟨⟨hids, hsum, hts⟩, hp1⟩
        subst hids
        subst hts
        subst hp1
        refine ⟨rfl, hlen, hrows, fun _ => ⟨hsum.symm, hsums⟩, ?_⟩
        intro sm hsm
        cases hsm
      · by_cases hfs : failAt = some obss.length
        · rw [hfs] at h
          simp at h
        · simp only [if_neg hfs] at h
          simp at h
          rcases h with ⟨⟨hids, hsum, hts⟩, hp1⟩
          subst hids
          subst hts
          refine ⟨rfl, hlen, ?_, ?_, ?_⟩
          · intro i hi
            rcases hrows i hi with ⟨o, ho, hoid, hots, homid, hoproj⟩
            refine ⟨o, ?_, hoid, hots, homid, hoproj⟩
            rw [← hp1]
            exact ho
          · intro hnone
            cases hnone
          · intro sm2 hsm2
            injection hsm2 with hsm2
            subst hsm2
            refine ⟨pe.summarySeq, hsum.symm, ?_⟩
            refine ⟨mkSummaryRow pe.summarySeq mid proj sm pn dt (ov.getD now), ?_, rfl, rfl, rfl⟩
            rw [← hp1]
            exact List.mem_cons_self _ _

theorem fileStoreObservations_ok_spec (s : FileState) (mid proj : String)
    (obss : List ObservationInput) (summary : Option SummaryInput) (pn : Option Nat)
    (dt : Nat) (ov : Option Nat) (now : Nat)
    (ids : List Nat) (sumId : Option Nat) (ts : Nat) (s1 : FileState)
    (h : FileStorageAdapter.storeObservations s mid proj obss summary pn dt ov now none
        = (.ok (ids, sumId, ts), s1)) :
    ts = ov.getD now ∧ ids.length = obss.length ∧
    (∀ i ∈ ids, ∃ o ∈ s1.observations, o.id = i ∧ o.createdAtEpoch = ts ∧
      o.memorySessionId = mid ∧ o.project = proj) ∧
    (summary = none → sumId = none ∧ s1.summaries = s.summaries) ∧
    (∀ sm, summary = some sm → ∃ j, sumId = some j ∧
      ∃ r ∈ s1.summaries, r.id = j ∧ r.createdAtEpoch = ts ∧
        r.memorySessionId = mid) := by
  rw [FileStorageAdapter.storeObservations] at h
  rcases hl : FileStorageAdapter.storeObsLoop s mid proj obss pn dt (ov.getD now) now 0 none
    with ⟨res, sl⟩
  rw [hl] at h
  rcases res with e0 | ids0
  · simp at h
  · obtain ⟨hlen, hsums, hrows, _⟩ := storeObsLoop_ok obss s 0 ids0 sl hl
    rcases summary with _ | sm
    · simp at h
      rcases h with ⟨⟨hids, hsum, hts⟩, hs1⟩
      subst hids
      subst hts
      subst hs1
      exact ⟨rfl, hlen, hrows, fun _ => ⟨hsum.symm, hsums⟩, fun sm hsm => by cases hsm⟩
    · simp at h
      rcases hss : FileStorageAdapter.storeSummary sl mid proj sm pn dt (some (ov.getD now)) now
        with e1 | r2
      · rw [hss] at h
        simp at h
      · rcases r2 with ⟨⟨sid, ts1⟩, s2⟩
        rw [hss] at h
        simp at h
        rcases h with ⟨⟨hids, hsum, hts⟩, hs1⟩
        subst hids
        subst hts
        rcases hslidx : sl.index with _ | idx2
        · rw [FileStorageAdapter.storeSummary, hslidx] at hss
          simp at hss
        · rw [FileStorageAdapter.storeSummary, hslidx] at hss
          simp at hss
          rcases hss with ⟨⟨hsid, hts1⟩, hs2⟩
          refine ⟨rfl, hlen, ?_, ?_, ?_⟩
          · intro i hi
            rcases hrows i hi with ⟨o, ho, hoid, hots, homid, hoproj⟩
            refine ⟨o, ?_, hoid, hots, homid, hoproj⟩
            rw [← hs1, ← hs2]
            exact ho
          · intro hc
            cases hc
          · intro sm2 hsm2
            injection hsm2 with hsm2
            subst hsm2
            refine ⟨sid, hsum.symm, ?_⟩
            refine ⟨mkSummaryRow idx2.nextSummaryId mid proj sm pn dt (ov.getD now), ?_, hsid, rfl, rfl⟩
            rw [← hs1, ← hs2]
            simp [putSummary]

-- ============================================================================
-- Claim C1
-- ============================================================================

/-- A second observation payload for the two-observation batches. -/
def exObsInput2 : ObservationInput :=
  { exObsInput with type := ObsType.bugfix, title := some "Bugfix 1" }

/-- Counterexample to C1 as stated: the File backend's batch store is a plain
sequential loop with no rollback, so when the second observation write fails
(`failAt = some 1`), the batch reports failure yet the first observation is
already on disk — neither all three rows nor none, and the stored state
changed. -/
theorem fileBatch_partial_failure_counterexample :
    (FileStorageAdapter.storeObservations emptyFS "mem-1" "demo" [exObsInput, exObsInput2]
        (some exSummaryInput) none 0 none 1000 (some 1)).1 =
      .error "ENOSPC: write failed" ∧
    (FileStorageAdapter.storeObservations emptyFS "mem-1" "demo" [exObsInput, exObsInput2]
        (some exSummaryInput) none 0 none 1000 (some 1)).2.observations.length = 1 ∧
    (FileStorageAdapter.storeObservations emptyFS "mem-1" "demo" [exObsInput, exObsInput2]
        (some exSummaryInput) none 0 none 1000 (some 1)).2.summaries.length = 0 :=
  ⟨rfl, rfl, rfl⟩

/-- Claim C1 as amended: the Postgres backend's batch store is atomic — it
wraps the inserts in one transaction, so on any simulated mid-batch failure
the tables are exactly as before (ROLLBACK; only the SERIAL sequences
advance, as in PostgreSQL), and on success all N observation rows and the
summary row exist with the returned ids. The File backend gives no such
guarantee: its sequential per-file writes can leave a strict prefix stored,
as the counterexample shows. -/
theorem pgBatch_atomic (p : PGState) (mid proj : String) (obss : List ObservationInput)
    (summary : Option SummaryInput) (pn : Option Nat) (dt : Nat) (ov : Option Nat)
    (now : Nat) (failAt : Option Nat) (hpool : p.pool = true) :
    (∀ e p1, PostgresStorageAdapter.storeObservations p mid proj obss summary pn dt ov now
        failAt = (.error e, p1) →
      p1.observations = p.observations ∧ p1.session_summaries = p.session_summaries ∧
      p1.sdk_sessions = p.sdk_sessions ∧ p1.pending_messages = p.pending_messages) ∧
    (∀ ids sumId ts p1, PostgresStorageAdapter.storeObservations p mid proj obss summary pn
        dt ov now failAt = (.ok (ids, sumId, ts), p1) →
      ts = ov.getD now ∧ ids.length = obss.length ∧
      (∀ i ∈ ids, ∃ o ∈ p1.observations, o.id = i ∧ o.createdAtEpoch = ts ∧
        o.memorySessionId = mid ∧ o.project = proj) ∧
      (summary = none → sumId = none ∧ p1.session_summaries = p.session_summaries) ∧
      (∀ sm, summary = some sm → ∃ j, sumId = some j ∧
        ∃ r ∈ p1.session_summaries, r.id = j ∧ r.createdAtEpoch = ts ∧
          r.memorySessionId = mid)) :=
  ⟨fun e p1 h =>
    pgStoreObservations_error_spec p mid proj obss summary pn dt ov now failAt e p1 hpool h,
   fun ids sumId ts p1 h =>
    pgStoreObservations_ok_spec p mid proj obss summary pn dt ov now failAt ids sumId ts p1 h⟩

/-- Postgres database after the C1 witness batch (one observation plus a
summary, shared override timestamp 1000). -/
def exC1PGafter : PGState :=
  { emptyPG with
    observations := [mkObsRow 1 "mem-1" "demo" exObsInput none 0 1000],
    session_summaries := [mkSummaryRow 1 "mem-1" "demo" exSummaryInput none 0 1000],
    observationSeq := 2, summarySeq := 2 }

/-- Witness for the amended C1: a successful concrete Postgres batch stores
every row with the shared timestamp. -/
theorem pgBatch_atomic_witness :
    (1000 : Nat) = (some 1000 : Option Nat).getD 5 ∧
    [1].length = [exObsInput].length ∧
    (∀ i ∈ [(1 : Nat)], ∃ o ∈ exC1PGafter.observations, o.id = i ∧ o.createdAtEpoch = 1000 ∧
      o.memorySessionId = "mem-1" ∧ o.project = "demo") ∧
    ((some exSummaryInput : Option SummaryInput) = none → (some 1 : Option Nat) = none ∧
      exC1PGafter.session_summaries = emptyPG.session_summaries) ∧
    (∀ sm, (some exSummaryInput : Option SummaryInput) = some sm →
      ∃ j, (some 1 : Option Nat) = some j ∧
      ∃ r ∈ exC1PGafter.session_summaries, r.id = j ∧ r.createdAtEpoch = 1000 ∧
        r.memorySessionId = "mem-1") :=
  (pgBatch_atomic emptyPG "mem-1" "demo" [exObsInput] (some exSummaryInput) none 0
    (some 1000) 5 none rfl).2 [1] (some 1) 1000 exC1PGafter (by rfl)

-- ============================================================================
-- Claim C7
-- ============================================================================

/-- Claim C7: on a successful batch store, every observation record and the
summary record written by the batch carry one shared creation-epoch timestamp
— the caller-supplied override when given, the backend's current time
otherwise — and that shared value is returned as `createdAtEpoch` together
with all generated ids. Proved for both the File and the Postgres backend. -/
theorem batch_shared_timestamp (s : FileState) (p : PGState) (mid proj : String)
    (obssF obssP : List ObservationInput) (sumF sumP : Option SummaryInput)
    (pn : Option Nat) (dt : Nat) (ovF ovP : Option Nat) (nowF nowP : Nat)
    (idsF : List Nat) (sumIdF : Option Nat) (tsF : Nat) (s1 : FileState)
    (idsP : List Nat) (sumIdP : Option Nat) (tsP : Nat) (p1 : PGState)
    (hf : FileStorageAdapter.storeObservations s mid proj obssF sumF pn dt ovF nowF none
        = (.ok (idsF, sumIdF, tsF), s1))
    (hg : PostgresStorageAdapter.storeObservations p mid proj obssP sumP pn dt ovP nowP none
        = (.ok (idsP, sumIdP, tsP), p1)) :
    (tsF = ovF.getD nowF ∧ idsF.length = obssF.length ∧
      (∀ i ∈ idsF, ∃ o ∈ s1.observations, o.id = i ∧ o.createdAtEpoch = tsF ∧
        o.memorySessionId = mid ∧ o.project = proj) ∧
      (∀ sm, sumF = some sm → ∃ j, sumIdF = some j ∧
        ∃ r ∈ s1.summaries, r.id = j ∧ r.createdAtEpoch = tsF ∧ r.memorySessionId = mid)) ∧
    (tsP = ovP.getD nowP ∧ idsP.length = obssP.length ∧
      (∀ i ∈ idsP, ∃ o ∈ p1.observations, o.id = i ∧ o.createdAtEpoch = tsP ∧
        o.memorySessionId = mid ∧ o.project = proj) ∧
      (∀ sm, sumP = some sm → ∃ j, sumIdP = some j ∧
        ∃ r ∈ p1.session_summaries, r.id = j ∧ r.createdAtEpoch = tsP ∧
          r.memorySessionId = mid)) := by
  obtain ⟨h1, h2, h3, _, h5⟩ := fileStoreObservations_ok_spec s mid proj obssF sumF pn dt
    ovF nowF idsF sumIdF tsF s1 hf
  obtain ⟨g1, g2, g3, _, g5⟩ := pgStoreObservations_ok_spec p mid proj obssP sumP pn dt
    ovP nowP none idsP sumIdP tsP p1 hg
  exact ⟨⟨h1, h2, h3, h5⟩, ⟨g1, g2, g3, g5⟩⟩

/-- File data directory after the C7 witness batch: two observations and a
summary, no override, so every row is stamped with the call time 777. -/
def exC7FSafter : FileState :=
  { sessions := [], pending := [],
    observations := [mkObsRow 2 "mem-1" "demo" exObsInput2 none 0 777,
                     mkObsRow 1 "mem-1" "demo" exObsInput none 0 777],
    summaries := [mkSummaryRow 1 "mem-1" "demo" exSummaryInput none 0 777],
    index := some { FileIndex.fresh with nextObservationId := 3, nextSummaryId := 2 } }

/-- Postgres database after the C7 witness batch (no override, call time 888). -/
def exC7PGafter : PGState :=
  { emptyPG with
    observations := [mkObsRow 1 "mem-1" "demo" exObsInput none 0 888],
    session_summaries := [mkSummaryRow 1 "mem-1" "demo" exSummaryInput none 0 888],
    observationSeq := 2, summarySeq := 2 }

/-- Witness for C7 at concrete batches on both backends. -/
theorem batch_shared_timestamp_witness :
    ((777 : Nat) = (none : Option Nat).getD 777 ∧ [1, 2].length = [exObsInput, exObsInput2].length ∧
      (∀ i ∈ [(1 : Nat), 2], ∃ o ∈ exC7FSafter.observations, o.id = i ∧ o.createdAtEpoch = 777 ∧
        o.memorySessionId = "mem-1" ∧ o.project = "demo") ∧
      (∀ sm, (some exSummaryInput : Option SummaryInput) = some sm →
        ∃ j, (some 1 : Option Nat) = some j ∧
        ∃ r ∈ exC7FSafter.summaries, r.id = j ∧ r.createdAtEpoch = 777 ∧
          r.memorySessionId = "mem-1")) ∧
    ((888 : Nat) = (none : Option Nat).getD 888 ∧ [1].length = [exObsInput].length ∧
      (∀ i ∈ [(1 : Nat)], ∃ o ∈ exC7PGafter.observations, o.id = i ∧ o.createdAtEpoch = 888 ∧
        o.memorySessionId = "mem-1" ∧ o.project = "demo") ∧
      (∀ sm, (some exSummaryInput : Option SummaryInput) = some sm →
        ∃ j, (some 1 : Option Nat) = some j ∧
        ∃ r ∈ exC7PGafter.session_summaries, r.id = j ∧ r.createdAtEpoch = 888 ∧
          r.memorySessionId = "mem-1")) :=
  batch_shared_timestamp emptyFS emptyPG "mem-1" "demo" [exObsInput, exObsInput2] [exObsInput]
    (some exSummaryInput) (some exSummaryInput) none 0 none none 777 888
    [1, 2] (some 1) 777 exC7FSafter [1] (some 1) 888 exC7PGafter (by rfl) (by rfl)
